import Mathlib

/-!
Verification development for the DOISearcher program (src/search_doi.py).

The Python source is shallowly embedded: pure string processing becomes Lean
functions on String and List Char, the mutable searcher object becomes an
explicit SearcherState threaded through the operations, wall-clock time is an
explicit rational parameter, the two external metadata providers are oracle
parameters (Except values for fallible round trips), and observable side
effects (throttling, outbound requests, cache reads and writes) are recorded
in an explicit event trace.
-/

/-! ## Python regular-expression semantics for the DOI format check

The source compiles the regular expression
10 dot digits-4-to-9 slash one-or-more-of-the-suffix-class, with a caret
anchor in front and a dollar anchor behind, and calls re.match on it
(search_doi.py lines 36 and 49-51).  The matcher below embeds exactly the
constructs that appear in this one expression, with CPython semantics:
re.match anchors at the start of the string, a greedy counted repetition of a
character class backtracks over the number of consumed characters, and the
dollar anchor accepts the end of the string or the position just before a
single newline that ends the string.  The ASCII restriction of Char.isDigit
and Char.isAlphanum is a deliberate simplification: CPython also accepts
non-ASCII word and digit characters, which no claim exercises. -/

/-- Python digit class, restricted to ASCII. -/
def isDigitPy (c : Char) : Bool := c.isDigit

/-- Python word-character class, restricted to ASCII.  -/
def isWordPy (c : Char) : Bool := c.isAlphanum || c == '_'

/-- Character class of the DOI suffix in the source regular expression:
dash, dot, underscore, semicolon, parentheses, slash, colon, or a word
character. -/
def isSuffixCharPy (c : Char) : Bool :=
  c == '-' || c == '.' || c == '_' || c == ';' || c == '(' || c == ')' ||
  c == '/' || c == ':' || isWordPy c

/-- Match one literal character, then continue with the rest. -/
def matchChar (c : Char) (l : List Char) (k : List Char → Bool) : Bool :=
  match l with
  | [] => false
  | x :: rest => x == c && k rest

/-- Match a counted repetition of a character class (the regex piece
class-braces-lo-comma-hi): some number n with lo ≤ n ≤ hi of leading
characters all in the class is consumed and the continuation is run on the
remainder.  Success is the existence of such an n, which matches the
backtracking behaviour of the Python engine. -/
def matchClsRep (p : Char → Bool) (lo hi : Nat) (l : List Char)
    (k : List Char → Bool) : Bool :=
  (List.range (hi + 1)).any fun n =>
    decide (lo ≤ n) && decide (n ≤ (l.takeWhile p).length) && k (l.drop n)

/-- Match one-or-more of a character class (the regex plus operator). -/
def matchClsPlus (p : Char → Bool) (l : List Char)
    (k : List Char → Bool) : Bool :=
  (List.range (l.length + 1)).any fun n =>
    decide (1 ≤ n) && decide (n ≤ (l.takeWhile p).length) && k (l.drop n)

/-- The chain of the DOI regular expression without its end anchor:
literal "10.", then 4 to 9 digits, then a literal slash, then one or more
suffix-class characters, then the continuation on what remains. -/
def doiChain (l : List Char) (k : List Char → Bool) : Bool :=
  matchChar '1' l fun l1 =>
  matchChar '0' l1 fun l2 =>
  matchChar '.' l2 fun l3 =>
  matchClsRep isDigitPy 4 9 l3 fun l4 =>
  matchChar '/' l4 fun l5 =>
  matchClsPlus isSuffixCharPy l5 k

/-- CPython semantics of the dollar anchor without re.MULTILINE: it accepts
the end of the string, or the position just before a newline that is the last
character of the string. -/
def pyDollarEnd (l : List Char) : Bool := l.isEmpty || l == ['\n']

/-- Strict end-of-input anchor (what re.fullmatch, and the specification
sentence "anchors at both ends", describe). -/
def atEnd (l : List Char) : Bool := l.isEmpty

/-- Embedding of DOISearcher.validate_doi (search_doi.py lines 49-51):
the truthiness test on the argument followed by re.match of the compiled
pattern.  The isinstance test is vacuous here because the embedding types the
argument as a string. -/
def validate_doi (s : String) : Bool :=
  !(s == "") && doiChain s.data pyDollarEnd

/-- Rendering of the claimed behaviour of the validator, in the words of the
specification: the string matches the identifier pattern exactly, anchored at
both ends, with no characters before or after the match.  Same pattern chain
as the code, but with a strict end-of-string anchor. -/
def exactValidate (s : String) : Bool :=
  !(s == "") && doiChain s.data atEnd

/-- Propositional form of an exact match of the DOI pattern: the character
list decomposes as "10.", then 4 to 9 digits, then a slash, then a nonempty
run of suffix-class characters, with nothing left over. -/
def ExactDOI (l : List Char) : Prop :=
  ∃ ds suf : List Char,
    l = '1' :: '0' :: '.' :: (ds ++ '/' :: suf) ∧
    4 ≤ ds.length ∧ ds.length ≤ 9 ∧ ds.all isDigitPy = true ∧
    suf ≠ [] ∧ suf.all isSuffixCharPy = true


/-! ## Structural string helpers

Kernel-evaluable counterparts of the Python string operations the source
uses.  Core's own trim, replace, splitOn, startswith, slicing and int
parsing use well-founded recursion, which the kernel cannot unfold on
concrete inputs, so the embedding carries structural versions over the
character list of a string.  Python's whitespace set for str.strip also
holds the vertical-tab and form-feed characters; the claims only exercise
the common four covered by Char.isWhitespace. -/

/-- Both-ends whitespace trim on a character list (Python str.strip). -/
def trimChars (l : List Char) : List Char :=
  ((l.dropWhile Char.isWhitespace).reverse.dropWhile Char.isWhitespace).reverse

/-- Python str.strip. -/
def pyStrip (s : String) : String := String.mk (trimChars s.data)

/-- Python str.startswith. -/
def pyStartsWith (s pre : String) : Bool := pre.data.isPrefixOf s.data

/-- Python slicing s[n:] (by characters). -/
def pySliceFrom (s : String) (n : Nat) : String := String.mk (s.data.drop n)

/-- Python slicing s[:n] (by characters). -/
def pySliceTo (s : String) (n : Nat) : String := String.mk (s.data.take n)

/-- Python str.replace for single characters. -/
def pyReplaceChar (s : String) (from_ to_ : Char) : String :=
  String.mk (s.data.map fun c => if c == from_ then to_ else c)

/-- Split on a single separator character, Python str.split semantics with a
one-character separator (keeps empty pieces). -/
def splitCharAux (sep : Char) : List Char → List Char → List (List Char)
  | [], acc => [acc.reverse]
  | c :: rest, acc =>
    if c == sep then acc.reverse :: splitCharAux sep rest []
    else splitCharAux sep rest (c :: acc)

/-- Split a string on one separator character. -/
def pySplitChar (s : String) (sep : Char) : List String :=
  (splitCharAux sep s.data []).map String.mk

/-- Split on a doubled separator character (the blank-line delimiter
newline-newline), Python str.split semantics: leftmost non-overlapping
matches, empty pieces kept. -/
def splitDoubleAux (sep : Char) : List Char → List Char → List (List Char)
  | [], acc => [acc.reverse]
  | [c], acc => [(c :: acc).reverse]
  | c :: c2 :: rest2, acc =>
    if c == sep && c2 == sep then acc.reverse :: splitDoubleAux sep rest2 []
    else splitDoubleAux sep (c2 :: rest2) (c :: acc)

/-- Split a string on the two-character blank-line separator. -/
def pySplitDouble (s : String) (sep : Char) : List String :=
  (splitDoubleAux sep s.data []).map String.mk

/-- Digit accumulation for int parsing. -/
def natOfDigits : List Char → Nat → Option Nat
  | [], acc => some acc
  | c :: rest, acc =>
    if c.isDigit then natOfDigits rest (acc * 10 + (c.toNat - 48)) else none

/-! ## JSON values and Python truthiness

Provider payloads and cached data are dynamically typed Python values built
from JSON.  Numbers are modelled as integers (no claim involves fractional
JSON numbers).  Python None and JSON null coincide in the json module, so a
single null constructor stands for both. -/

/-- Dynamically typed JSON payload value. -/
inductive JsonValue where
  | null : JsonValue
  | bool : Bool → JsonValue
  | num : Int → JsonValue
  | str : String → JsonValue
  | arr : List JsonValue → JsonValue
  | obj : List (String × JsonValue) → JsonValue

/-- Python truthiness of a JSON value: None, False, 0, empty string, empty
list and empty dict are falsy, everything else is truthy. -/
def truthy : JsonValue → Bool
  | .null => false
  | .bool b => b
  | .num n => n != 0
  | .str s => s ≠ ""
  | .arr xs => !xs.isEmpty
  | .obj fs => !fs.isEmpty

/-- Lookup of a key in a JSON object rendered as an association list
(Python dict indexing / the in operator). -/
def jsonLookup (fields : List (String × JsonValue)) (key : String) :
    Option JsonValue :=
  match fields with
  | [] => none
  | (k, v) :: rest => if k == key then some v else jsonLookup rest key

/-! ## Searcher state, cache store and rate limiter

The mutable attributes of the DOISearcher object (search_doi.py lines
16-47), plus the cache directory contents.  Wall-clock time is rational
seconds; time.sleep is idealised as exact, so the release time of a throttle
call is computed rather than measured.  A cache file is either a well-formed
record with a timestamp and a data payload, or corrupt (unreadable JSON or
timestamp, which the source's try/except treats as a miss). -/

/-- One on-disk cache file. -/
inductive CacheFile where
  | entry : ℚ → JsonValue → CacheFile
  | corrupt : CacheFile

/-- A parsed medline publication block (title is mandatory for inclusion,
journal and year are independently optional). -/
structure PubSummary where
  title : String
  journal : Option String
  year : Option String
deriving DecidableEq

/-- Result of get_author_research: the papers list and the total count. -/
structure AuthorResearch where
  papers : List PubSummary
  total : Int
deriving DecidableEq

/-- One entry of the search_history list appended by find_authors
(search_doi.py lines 223-229).  The timestamp is the opaque isoformat
string. -/
structure HistoryEntry where
  doi : String
  first_author : Option String
  corresponding_author : Option String
  timestamp : String
  research_info : Option AuthorResearch
deriving DecidableEq

/-- The mutable state of a DOISearcher object together with the cache
directory contents (a map from file path to file). -/
structure SearcherState where
  use_cache : Bool
  cache_dir : String
  files : List (String × CacheFile)
  last_request_time : ℚ
  min_delay : ℚ
  search_history : List HistoryEntry

/-- Observable side effects of the searcher operations. -/
inductive Event where
  | throttle : Event
  | cacheRead : String → Event
  | cacheWrite : String → Event
  | crossrefRequest : String → Event
  | esearchRequest : String → Event
  | efetchRequest : String → Event
deriving DecidableEq

/-- Cache freshness window: self.cache_ttl = timedelta(days=7)
(search_doi.py line 33), in seconds. -/
def cache_ttl : ℚ := 7 * 86400

/-- Lookup of a path in the cache directory. -/
def lookupFile (files : List (String × CacheFile)) (path : String) :
    Option CacheFile :=
  match files with
  | [] => none
  | (p, f) :: rest => if p == path then some f else lookupFile rest path

/-- Writing a file: overwrites any previous file at the same path. -/
def writeFile (files : List (String × CacheFile)) (path : String)
    (f : CacheFile) : List (String × CacheFile) :=
  (path, f) :: files

/-- Embedding of DOISearcher._get_cache_path (search_doi.py lines 53-55):
os.path.join of the cache directory with the identifier whose slashes are
replaced by underscores, suffixed ".json". -/
def get_cache_path (st : SearcherState) (doi : String) : String :=
  st.cache_dir ++ "/" ++ (pyReplaceChar doi '/' '_') ++ ".json"

/-- Embedding of DOISearcher._get_from_cache (search_doi.py lines 57-72).
Returns the Python value the method returns: the cached payload on a fresh
well-formed entry, otherwise None (modelled as JsonValue.null), alongside
the read events performed.  A corrupt file raises inside the try block and is
caught, yielding None. -/
def get_from_cache (st : SearcherState) (now : ℚ) (doi : String) :
    JsonValue × List Event :=
  if st.use_cache = false then (JsonValue.null, [])
  else
    let path := get_cache_path st doi
    match lookupFile st.files path with
    | none => (JsonValue.null, [Event.cacheRead path])
    | some CacheFile.corrupt => (JsonValue.null, [Event.cacheRead path])
    | some (CacheFile.entry ts payload) =>
      if now - ts ≤ cache_ttl then (payload, [Event.cacheRead path])
      else (JsonValue.null, [Event.cacheRead path])

/-- Embedding of DOISearcher._save_to_cache (search_doi.py lines 74-87):
writes a record with the current timestamp and the payload; a no-op when
caching is disabled. -/
def save_to_cache (st : SearcherState) (now : ℚ) (doi : String)
    (data : JsonValue) : SearcherState × List Event :=
  if st.use_cache = false then (st, [])
  else
    let path := get_cache_path st doi
    ({ st with files := writeFile st.files path (CacheFile.entry now data) },
     [Event.cacheWrite path])

/-- Embedding of DOISearcher._wait_between_requests (search_doi.py lines
89-94) under an exact-sleep clock: called at time t, it sleeps until
last_request_time + min_delay when less than min_delay has elapsed, then
stores the release time (the value of time.time() after the sleep) in
last_request_time.  Returns the release time and the new state. -/
def wait_between_requests (st : SearcherState) (t : ℚ) : ℚ × SearcherState :=
  let elapsed := t - st.last_request_time
  let release := if elapsed < st.min_delay then t + (st.min_delay - elapsed) else t
  (release, { st with last_request_time := release })

/-- Embedding of DOISearcher.get_paper_info (search_doi.py lines 96-125).
The Crossref round trip is an oracle: Except.error stands for a raised
transport error (or a non-dict response), Except.ok gives the response dict.
Returns the Python return value (None as JsonValue.null), the state after
the call, and the trace of events. -/
def get_paper_info (st : SearcherState) (now : ℚ) (doi : String)
    (crossref : Except Unit (List (String × JsonValue))) :
    JsonValue × SearcherState × List Event :=
  if validate_doi doi = false then (JsonValue.null, st, [])
  else
    let (cached, ev1) := get_from_cache st now doi
    if truthy cached then (cached, st, ev1)
    else
      let (release, st1) := wait_between_requests st now
      let ev := ev1 ++ [Event.throttle, Event.crossrefRequest doi]
      match crossref with
      | Except.error _ => (JsonValue.null, st1, ev)
      | Except.ok work =>
        match jsonLookup work "message" with
        | none => (JsonValue.null, st1, ev)
        | some data =>
          let (st2, ev2) := save_to_cache st1 release doi data
          (data, st2, ev ++ ev2)

/-! ## Provider A author records and find_authors

An author record of the Crossref message is a dict with optional fields.
The embedding keeps exactly the fields find_authors reads through .get
(search_doi.py lines 195-214): given, family, sequence, and the function
field of the contributor-role sub-dict (none when either level is missing). -/

/-- One author record from the Provider A response. -/
structure Author where
  given : Option String
  family : Option String
  sequence : Option String
  contribRoleFunction : Option String
deriving DecidableEq

/-- Name building in find_authors: the Python f-string of given and family
with .get defaults of the empty string, then str.strip
(search_doi.py lines 201, 208, 214). -/
def authorName (a : Author) : String :=
  pyStrip ((a.given.getD "") ++ " " ++ (a.family.getD ""))

/-- Python truthiness of an optional string (the variables first_author and
corresponding_author hold either None or a str): None and the empty string
are falsy. -/
def pyTruthyOptStr : Option String → Bool
  | none => false
  | some s => s ≠ ""

/-- The role test of the reverse scan (search_doi.py lines 206-207): the
sequence field equals "additional" and the contributor-role function equals
"corresponding". -/
def isMarkedCorresponding (a : Author) : Bool :=
  a.sequence == some "additional" && a.contribRoleFunction == some "corresponding"

/-- The corresponding-author computation of find_authors (search_doi.py
lines 203-214): scan the reversed list for the first marked entry and take
its built name; then, when the variable is still falsy (None because no
entry matched, or the empty string because the matched entry has no name
parts) and the list is nonempty, overwrite it with the built name of the
last author. -/
def corresponding_author_of (authors : List Author) : Option String :=
  let fromScan : Option String :=
    (authors.reverse.find? isMarkedCorresponding).map authorName
  if pyTruthyOptStr fromScan then fromScan
  else
    match authors.getLast? with
    | some la => some (authorName la)
    | none => fromScan

/-- Embedding of DOISearcher.find_authors (search_doi.py lines 189-231).
The Provider A step is abstracted by its observable outcome: paper_info is
none when get_paper_info returned a falsy value or the response dict has no
author key (the early return at line 192), and some authors when the
response carries an author list.  The Provider B step is abstracted by a
deterministic oracle research from an author name to the profile
get_author_research would return for it.  Returns the result triple and the
state with the appended history entry. -/
def find_authors (st : SearcherState) (nowIso : String) (doi : String)
    (paper_info : Option (List Author))
    (research : String → AuthorResearch) :
    (Option String × Option String × Option AuthorResearch) × SearcherState :=
  match paper_info with
  | none => ((none, none, none), st)
  | some authors =>
    let first_author : Option String :=
      match authors with
      | [] => none
      | first :: _ => some (authorName first)
    let corresponding_author := corresponding_author_of authors
    let research_info : Option AuthorResearch :=
      match corresponding_author with
      | some nm => if nm ≠ "" then some (research nm) else none
      | none => none
    let entry : HistoryEntry :=
      { doi := doi, first_author := first_author,
        corresponding_author := corresponding_author,
        timestamp := nowIso, research_info := research_info }
    ((first_author, corresponding_author, research_info),
     { st with search_history := st.search_history ++ [entry] })

/-! ## Provider B: get_author_research and the medline parsing -/

/-- The esearch response record as read by the source: the IdList and the
raw Count field (search_doi.py lines 139-142, 181). -/
structure EsearchRecord where
  idList : List String
  count : String
deriving DecidableEq

/-- Python int() on a string: surrounding whitespace is stripped, an
optional sign followed by digits parses, anything else raises (none).
The underscore digit-grouping feature of Python 3 literals is not modelled;
no claim exercises it. -/
def pyInt (s : String) : Option Int :=
  match trimChars s.data with
  | [] => none
  | c :: rest =>
    if c == '-' then
      match rest with
      | [] => none
      | _ => (natOfDigits rest 0).map fun n => -(n : Int)
    else if c == '+' then
      match rest with
      | [] => none
      | _ => (natOfDigits rest 0).map Int.ofNat
    else (natOfDigits (c :: rest) 0).map Int.ofNat

/-- Field extraction over the lines of one medline block (search_doi.py
lines 163-169): later lines with the same tag overwrite earlier ones;
line[6:] drops the five-character tag and the following space; the year is
the 4-character leading substring of the stripped date field. -/
def medlineFields (lines : List String) :
    Option String × Option String × Option String :=
  lines.foldl
    (fun acc line =>
      if pyStartsWith line "TI  -" then
        (some (pyStrip (pySliceFrom line 6)), acc.2.1, acc.2.2)
      else if pyStartsWith line "TA  -" then
        (acc.1, some (pyStrip (pySliceFrom line 6)), acc.2.2)
      else if pyStartsWith line "DP  -" then
        (acc.1, acc.2.1, some (pySliceTo (pyStrip (pySliceFrom line 6)) 4))
      else acc)
    (none, none, none)

/-- Parsing of one medline block (search_doi.py lines 159-176): the block
contributes a paper only when its title variable ends up truthy (set and
nonempty). -/
def parseBlock (block : String) : Option PubSummary :=
  let fields := medlineFields (pySplitChar block '\n')
  match fields.1 with
  | some title =>
    if title ≠ "" then some { title := title, journal := fields.2.1, year := fields.2.2 }
    else none
  | none => none

/-- Parsing of the whole efetch text (search_doi.py lines 154-176): split on
blank-line delimiters, skip whitespace-only blocks, keep blocks with a
truthy title. -/
def parseMedline (text : String) : List PubSummary :=
  (pySplitDouble text '\n').filterMap fun block =>
    if pyStrip block = "" then none else parseBlock block

/-- The empty research result returned on no match and on any failure. -/
def emptyResearch : AuthorResearch := { papers := [], total := 0 }

/-- Embedding of DOISearcher.get_author_research (search_doi.py lines
127-187).  The two PubMed round trips are oracles: esearch yields the record
or raises, efetch yields the flat medline text or raises; a raised error
anywhere in the try block, including the final int() of the Count field,
lands in the except clause which returns the empty result. -/
def get_author_research (st : SearcherState) (now : ℚ) (author_name : String)
    (esearch : Except Unit EsearchRecord) (efetch : Except Unit String) :
    AuthorResearch × SearcherState × List Event :=
  let (release1, st1) := wait_between_requests st now
  let term := author_name ++ "[Author]"
  match esearch with
  | Except.error _ =>
    (emptyResearch, st1, [Event.throttle, Event.esearchRequest term])
  | Except.ok record =>
    if record.idList.isEmpty then
      (emptyResearch, st1, [Event.throttle, Event.esearchRequest term])
    else
      let (_, st2) := wait_between_requests st1 release1
      let ids := String.intercalate "," record.idList
      let ev := [Event.throttle, Event.esearchRequest term,
                 Event.throttle, Event.efetchRequest ids]
      match efetch with
      | Except.error _ => (emptyResearch, st2, ev)
      | Except.ok text =>
        match pyInt record.count with
        | none => (emptyResearch, st2, ev)
        | some total => ({ papers := parseMedline text, total := total }, st2, ev)

/-! ## History export -/

/-- String rendering Python applies inside the preview f-string: str(None)
is the text None. -/
def pyStrOfOpt : Option String → String
  | none => "None"
  | some s => s

/-- Cell rendering of the csv writer: None becomes the empty cell. -/
def csvCell : Option String → String
  | none => ""
  | some s => s

/-- The header row written by export_history (search_doi.py lines 246-253). -/
def headerRow : List String :=
  ["DOI", "第一作者", "通讯作者", "查询时间", "发表论文数", "最近论文"]

/-- One preview item: title, space, year in parentheses (search_doi.py line
260). -/
def paperPreviewItem (p : PubSummary) : String :=
  p.title ++ " (" ++ pyStrOfOpt p.year ++ ")"

/-- The recent-papers preview cell for a present research profile
(search_doi.py lines 256-261): empty when the papers list is falsy,
otherwise the semicolon-join over the first three papers. -/
def recentPapersCell (ri : AuthorResearch) : String :=
  if ri.papers.isEmpty then ""
  else String.intercalate "; " ((ri.papers.take 3).map paperPreviewItem)

/-- The data row for a history entry whose research_info is a dict
(search_doi.py lines 263-270). -/
def rowOf (r : HistoryEntry) (ri : AuthorResearch) : List String :=
  [r.doi, csvCell r.first_author, csvCell r.corresponding_author,
   r.timestamp, toString ri.total, recentPapersCell ri]

/-- Outcome of export_history: the empty-history no-op, a normal export with
the written rows, or an abort by a raised error after some rows were already
written (the file keeps the rows written before the raise). -/
inductive ExportOutcome where
  | no_history : ExportOutcome
  | ok : List (List String) → ExportOutcome
  | aborted : List (List String) → ExportOutcome
deriving DecidableEq

/-- The row-writing loop of export_history (search_doi.py lines 255-270).
On an entry whose research_info is None, record.get applied with a dict
default still returns the stored None (the key is present), and the chained
.get on None raises AttributeError: the loop stops and the rows written so
far stand.  Returns the data rows written and whether the loop completed. -/
def writeRows : List HistoryEntry → List (List String) × Bool
  | [] => ([], true)
  | r :: rest =>
    match r.research_info with
    | none => ([], false)
    | some ri =>
      let tail := writeRows rest
      (rowOf r ri :: tail.1, tail.2)

/-- Embedding of DOISearcher.export_history (search_doi.py lines 233-276)
for a given filename: no-op on empty history, otherwise the header row
followed by the data rows, aborted when the loop raises. -/
def export_history (history : List HistoryEntry) : ExportOutcome :=
  if history.isEmpty then ExportOutcome.no_history
  else
    let rows := writeRows history
    if rows.2 then ExportOutcome.ok (headerRow :: rows.1)
    else ExportOutcome.aborted (headerRow :: rows.1)

/-! ## Claimed and amended behaviours, and concrete instances -/

/-- The corresponding-author rule as the specification states it: scan the
list in reverse and take the first entry marked additional and
corresponding; when no such entry exists, take the last entry of the forward
list regardless of role markers. -/
def claimedCorresponding (authors : List Author) : Option String :=
  match authors.reverse.find? isMarkedCorresponding with
  | some a => some (authorName a)
  | none => (authors.getLast?).map authorName

/-- The corresponding-author rule as the code actually behaves: scan the
list in reverse for the first marked entry; when no marked entry exists, or
the marked entry's built name is the empty string, fall back to the last
entry of the forward list (absent when the list is empty). -/
def amendedCorresponding (authors : List Author) : Option String :=
  match authors.reverse.find? isMarkedCorresponding with
  | some a =>
    if authorName a ≠ "" then some (authorName a)
    else (authors.getLast?).map authorName
  | none => (authors.getLast?).map authorName

/-- A freshly constructed searcher: caching on, default cache directory,
last_request_time zero, one-second minimum delay, empty history
(search_doi.py lines 16-47). -/
def initState : SearcherState :=
  { use_cache := true, cache_dir := ".cache", files := [],
    last_request_time := 0, min_delay := 1, search_history := [] }

/-- A searcher whose cache holds one entry for the identifier 10.1000/demo,
written at time ts with the given payload. -/
def cachedState (ts : ℚ) (payload : JsonValue) : SearcherState :=
  { initState with
    files := [(get_cache_path initState "10.1000/demo", CacheFile.entry ts payload)] }

/-- A marked corresponding author record carrying no name fields. -/
def namelessMarked : Author :=
  { given := none, family := none, sequence := some "additional",
    contribRoleFunction := some "corresponding" }

/-- An unmarked author record named B Two. -/
def plainAuthor : Author :=
  { given := some "B", family := some "Two", sequence := some "additional",
    contribRoleFunction := none }

/-- Author list on which the claimed and actual corresponding-author rules
disagree: the marked entry has an empty built name. -/
def c1Authors : List Author := [namelessMarked, plainAuthor]

/-- A history entry whose research profile is absent, exactly as
find_authors appends it for a paper whose author list is empty. -/
def emptyProfileEntry : HistoryEntry :=
  { doi := "10.1000/demo", first_author := none, corresponding_author := none,
    timestamp := "2026-01-01T00:00:00", research_info := none }

/-! ## Theorems for the claims -/

/-- C3: for every identifier whose validation fails, get_paper_info returns
None, leaves the state (cache files, last_request_time, history) unchanged,
and performs no event at all: no cache read or write, no throttle, no
provider request; the failure is an absent result, not a raised exception. -/
theorem invalid_doi_has_no_side_effect (st : SearcherState) (now : ℚ)
    (doi : String) (crossref : Except Unit (List (String × JsonValue)))
    (h : validate_doi doi = false) :
    get_paper_info st now doi crossref = (JsonValue.null, st, []) := by
  unfold get_paper_info
  simp [h]

/-- Witness for C3 at the malformed identifier 10.1038 (no suffix). -/
theorem invalid_doi_has_no_side_effect_witness :
    get_paper_info initState 0 "10.1038" (Except.error ()) =
      (JsonValue.null, initState, []) :=
  invalid_doi_has_no_side_effect initState 0 "10.1038" (Except.error ())
    (by decide)

/-- C5: with caching enabled, _save_to_cache of any payload under any
identifier followed immediately by _get_from_cache of the same identifier
returns the same payload unchanged. -/
theorem cache_round_trip (st : SearcherState) (now : ℚ) (doi : String)
    (payload : JsonValue) (h : st.use_cache = true) :
    (get_from_cache ((save_to_cache st now doi payload).1) now doi).1 = payload := by
  unfold save_to_cache get_from_cache writeFile lookupFile
  simp [h, get_cache_path]
  rw [if_pos (by norm_num [cache_ttl])]

/-- Witness for C5 at a concrete identifier and payload. -/
theorem cache_round_trip_witness :
    (get_from_cache ((save_to_cache initState 5 "10.1000/demo"
        (JsonValue.str "hello")).1) 5 "10.1000/demo").1 =
      JsonValue.str "hello" :=
  cache_round_trip initState 5 "10.1000/demo" (JsonValue.str "hello") rfl

/-- C6: with caching enabled, a stored well-formed cache entry is returned
by _get_from_cache exactly when the current time is within the 7-day window
of its stored timestamp: fresh entries yield the payload, stale entries
yield None; and on a stale entry under a valid identifier, get_paper_info
goes on to invoke the throttle (a fresh fetch is attempted). -/
theorem cache_freshness_window (st : SearcherState) (now ts : ℚ)
    (doi : String) (payload : JsonValue)
    (crossref : Except Unit (List (String × JsonValue)))
    (hc : st.use_cache = true)
    (hf : lookupFile st.files (get_cache_path st doi) =
      some (CacheFile.entry ts payload)) :
    (now - ts ≤ cache_ttl → (get_from_cache st now doi).1 = payload) ∧
    (cache_ttl < now - ts → (get_from_cache st now doi).1 = JsonValue.null) ∧
    (validate_doi doi = true → cache_ttl < now - ts →
      Event.throttle ∈ (get_paper_info st now doi crossref).2.2) := by
  refine ⟨?_, ?_, ?_⟩
  · intro hfresh
    unfold get_from_cache
    simp [hc, hf, hfresh]
  · intro hstale
    unfold get_from_cache
    simp [hc, hf, not_le.mpr hstale]
  · intro hv hstale
    have hnull : get_from_cache st now doi =
        (JsonValue.null, [Event.cacheRead (get_cache_path st doi)]) := by
      unfold get_from_cache
      simp [hc, hf, not_le.mpr hstale]
    unfold get_paper_info
    rw [hv, hnull]
    cases crossref with
    | error e => simp [truthy]
    | ok work =>
      cases hmsg : jsonLookup work "message" with
      | none => simp [truthy, hmsg]
      | some data => simp [truthy, hmsg]

/-- Witness for C6: an entry written 6 days before the current time is
returned, one written 8 days before is treated as absent. -/
theorem cache_freshness_window_witness :
    (get_from_cache (cachedState 0 (JsonValue.str "payload")) 518400
      "10.1000/demo").1 = JsonValue.str "payload" ∧
    (get_from_cache (cachedState 0 (JsonValue.str "payload")) 691200
      "10.1000/demo").1 = JsonValue.null :=
  ⟨(cache_freshness_window (cachedState 0 (JsonValue.str "payload")) 518400 0
      "10.1000/demo" (JsonValue.str "payload") (Except.error ()) rfl rfl).1
      (by norm_num [cache_ttl]),
   (cache_freshness_window (cachedState 0 (JsonValue.str "payload")) 691200 0
      "10.1000/demo" (JsonValue.str "payload") (Except.error ()) rfl rfl).2.1
      (by norm_num [cache_ttl])⟩

/-- C9: with the configured one-unit minimum delay, the release times of two
consecutive throttle calls on the shared limiter are at least one unit
apart, and the internal last-call timestamp is the release time of the call,
not its invocation time. -/
theorem throttle_spacing (st : SearcherState) (t1 t2 : ℚ)
    (h : st.min_delay = 1) :
    (wait_between_requests st t1).2.last_request_time =
      (wait_between_requests st t1).1 ∧
    1 ≤ (wait_between_requests (wait_between_requests st t1).2 t2).1 -
      (wait_between_requests st t1).1 := by
  unfold wait_between_requests
  constructor
  · rfl
  · simp only [h]
    set r1 := if t1 - st.last_request_time < 1 then
      t1 + (1 - (t1 - st.last_request_time)) else t1 with hr1
    by_cases h2 : t2 - r1 < 1
    · rw [if_pos h2]; ring_nf; linarith
    · rw [if_neg h2]; linarith

/-- Witness for C9 at concrete times: a second call issued immediately
after the first still releases a full unit later. -/
theorem throttle_spacing_witness :
    (wait_between_requests initState 5).2.last_request_time =
      (wait_between_requests initState 5).1 ∧
    1 ≤ (wait_between_requests (wait_between_requests initState 5).2 5).1 -
      (wait_between_requests initState 5).1 :=
  throttle_spacing initState 5 5 rfl

/-- C10: when the Provider A response carries an author key holding an empty
list, find_authors returns the all-absent triple and still appends a history
entry whose first-author, corresponding-author and research-profile fields
are all absent, whereas a response without an author list returns the same
triple with the history untouched. -/
theorem empty_author_list_still_recorded (st : SearcherState)
    (nowIso doi : String) (research : String → AuthorResearch) :
    find_authors st nowIso doi (some []) research =
      ((none, none, none),
       { st with search_history := st.search_history ++
          [{ doi := doi, first_author := none, corresponding_author := none,
             timestamp := nowIso, research_info := none }] }) ∧
    find_authors st nowIso doi none research = ((none, none, none), st) := by
  constructor <;> rfl

/-- C7: get_author_research returns exactly the empty profile (no papers,
total zero) when the name search yields no identifiers, in which case the
second round trip is not attempted (the trace holds a single throttle and
the esearch request only); and likewise on an esearch transport failure, an
efetch transport failure, or a parse failure of the count field.  No partial
result is ever produced in these cases. -/
theorem author_research_fails_empty (st : SearcherState) (now : ℚ)
    (author_name : String) (esearch : Except Unit EsearchRecord)
    (efetch : Except Unit String) :
    (∀ record, esearch = Except.ok record → record.idList = [] →
      (get_author_research st now author_name esearch efetch).1 = emptyResearch ∧
      (get_author_research st now author_name esearch efetch).2.2 =
        [Event.throttle, Event.esearchRequest (author_name ++ "[Author]")]) ∧
    (esearch = Except.error () →
      (get_author_research st now author_name esearch efetch).1 = emptyResearch) ∧
    (∀ record, esearch = Except.ok record → efetch = Except.error () →
      (get_author_research st now author_name esearch efetch).1 = emptyResearch) ∧
    (∀ record text, esearch = Except.ok record → efetch = Except.ok text →
      pyInt record.count = none →
      (get_author_research st now author_name esearch efetch).1 = emptyResearch) := by
  refine ⟨?_, ?_, ?_, ?_⟩
  · intro record hes hid
    subst hes
    unfold get_author_research
    simp [hid]
  · intro hes
    subst hes
    unfold get_author_research
    simp
  · intro record hes hef
    subst hes; subst hef
    unfold get_author_research
    by_cases hid : record.idList.isEmpty <;> simp [hid]
  · intro record text hes hef hparse
    subst hes; subst hef
    unfold get_author_research
    by_cases hid : record.idList.isEmpty <;> simp [hid, hparse]

/-- Witness for C7: a search yielding no identifiers, with the efetch oracle
poised to fail, returns the empty profile after only the first round trip. -/
theorem author_research_fails_empty_witness :
    (get_author_research initState 0 "Smith J"
      (Except.ok { idList := [], count := "0" }) (Except.error ())).1 =
        emptyResearch ∧
    (get_author_research initState 0 "Smith J"
      (Except.ok { idList := [], count := "0" }) (Except.error ())).2.2 =
        [Event.throttle, Event.esearchRequest ("Smith J" ++ "[Author]")] :=
  (author_research_fails_empty initState 0 "Smith J"
    (Except.ok { idList := [], count := "0" }) (Except.error ())).1
    { idList := [], count := "0" } rfl rfl

/-- C8 (code bug): on a non-empty history holding an entry whose research
profile is absent, export_history does not write one row per entry with a
zero publication count; the chained .get on the stored None raises an
AttributeError and the export aborts with only the header row written. -/
theorem export_aborts_on_absent_profile :
    export_history [emptyProfileEntry] = ExportOutcome.aborted [headerRow] ∧
    export_history [emptyProfileEntry] ≠
      ExportOutcome.ok [headerRow,
        ["10.1000/demo", "", "", "2026-01-01T00:00:00", "0", ""]] := by
  constructor
  · rfl
  · intro h
    rw [show export_history [emptyProfileEntry] =
      ExportOutcome.aborted [headerRow] from rfl] at h
    exact ExportOutcome.noConfusion h

/-- Evaluation lemma: a fresh well-formed cache entry is what
_get_from_cache returns, with the single read event. -/
theorem get_from_cache_fresh_eval (st : SearcherState) (now ts : ℚ)
    (doi : String) (payload : JsonValue)
    (hc : st.use_cache = true)
    (hf : lookupFile st.files (get_cache_path st doi) =
      some (CacheFile.entry ts payload))
    (hfresh : now - ts ≤ cache_ttl) :
    get_from_cache st now doi =
      (payload, [Event.cacheRead (get_cache_path st doi)]) := by
  unfold get_from_cache
  simp [hc, hf, hfresh]

/-- C4 counterexample: a valid identifier with a fresh cache entry whose
payload is the empty dict.  _get_from_cache does return the payload, but
get_paper_info's truthiness test treats it as a miss: the call returns None
instead of the cached payload and the throttle and Provider A request are
performed. -/
theorem fresh_falsy_cache_entry_not_returned :
    validate_doi "10.1000/demo" = true ∧
    (get_from_cache (cachedState 0 (JsonValue.obj [])) 0 "10.1000/demo").1 =
      JsonValue.obj [] ∧
    (get_paper_info (cachedState 0 (JsonValue.obj [])) 0 "10.1000/demo"
      (Except.error ())).1 = JsonValue.null ∧
    JsonValue.null ≠ JsonValue.obj [] ∧
    Event.throttle ∈ (get_paper_info (cachedState 0 (JsonValue.obj [])) 0
      "10.1000/demo" (Except.error ())).2.2 := by
  have hv : validate_doi "10.1000/demo" = true := by decide
  have h1 : get_from_cache (cachedState 0 (JsonValue.obj [])) 0 "10.1000/demo" =
      (JsonValue.obj [],
       [Event.cacheRead (get_cache_path (cachedState 0 (JsonValue.obj []))
          "10.1000/demo")]) :=
    get_from_cache_fresh_eval _ 0 0 _ _ rfl rfl (by norm_num [cache_ttl])
  refine ⟨hv, by rw [h1], ?_, fun h => JsonValue.noConfusion h, ?_⟩
  · unfold get_paper_info
    simp [hv, h1, truthy]
  · unfold get_paper_info
    simp [hv, h1, truthy]

/-- C4 as amended: for a valid identifier whose fresh cache entry holds a
truthy payload, get_paper_info returns the cached payload, leaves the state
unchanged, and performs no throttle and no provider request (the only event
is the cache read); a falsy cached payload is instead treated as a miss and
the request path is taken. -/
theorem fresh_truthy_cache_hit_no_network (st : SearcherState) (now ts : ℚ)
    (doi : String) (payload : JsonValue)
    (crossref : Except Unit (List (String × JsonValue)))
    (hv : validate_doi doi = true)
    (hc : st.use_cache = true)
    (hf : lookupFile st.files (get_cache_path st doi) =
      some (CacheFile.entry ts payload))
    (hfresh : now - ts ≤ cache_ttl)
    (ht : truthy payload = true) :
    get_paper_info st now doi crossref =
      (payload, st, [Event.cacheRead (get_cache_path st doi)]) := by
  have hget : get_from_cache st now doi =
      (payload, [Event.cacheRead (get_cache_path st doi)]) := by
    unfold get_from_cache
    simp [hc, hf, hfresh]
  unfold get_paper_info
  rw [hv, hget]
  simp [ht]

/-- Witness for the amended C4 at a concrete fresh truthy cache entry. -/
theorem fresh_truthy_cache_hit_no_network_witness :
    get_paper_info (cachedState 0 (JsonValue.str "msg")) 5 "10.1000/demo"
      (Except.error ()) =
    (JsonValue.str "msg", cachedState 0 (JsonValue.str "msg"),
     [Event.cacheRead (get_cache_path (cachedState 0 (JsonValue.str "msg"))
        "10.1000/demo")]) :=
  fresh_truthy_cache_hit_no_network (cachedState 0 (JsonValue.str "msg")) 5 0
    "10.1000/demo" (JsonValue.str "msg") (Except.error ())
    (by decide) rfl rfl (by norm_num [cache_ttl]) (by decide)

/-- C1 counterexample: on an author list whose only marked
additional-plus-corresponding entry carries no name fields, the reverse
scan does pick that entry, but its built name is the empty string, so the
fallback overwrites it: find_authors reports the last author's name instead
of the picked entry's name, against the claimed rule. -/
theorem corresponding_pick_overridden_by_empty_name :
    claimedCorresponding c1Authors = some "" ∧
    (find_authors initState "2026-01-01T00:00:00" "10.1000/demo"
      (some c1Authors) (fun _ => emptyResearch)).1.2.1 = some "B Two" ∧
    (find_authors initState "2026-01-01T00:00:00" "10.1000/demo"
      (some c1Authors) (fun _ => emptyResearch)).1.2.1 ≠
      claimedCorresponding c1Authors := by
  refine ⟨rfl, rfl, ?_⟩
  intro h
  rw [show (find_authors initState "2026-01-01T00:00:00" "10.1000/demo"
      (some c1Authors) (fun _ => emptyResearch)).1.2.1 = some "B Two" from rfl,
    show claimedCorresponding c1Authors = some "" from rfl] at h
  simp at h

/-- C1 as amended: the corresponding author find_authors reports is the
first entry of the reverse scan marked additional-plus-corresponding,
except that when no entry is marked, or the marked entry's built name is
empty, the last entry of the forward list is reported instead (absent for
an empty list). -/
theorem corresponding_author_rule (st : SearcherState) (nowIso doi : String)
    (authors : List Author) (research : String → AuthorResearch) :
    (find_authors st nowIso doi (some authors) research).1.2.1 =
      amendedCorresponding authors := by
  show corresponding_author_of authors = amendedCorresponding authors
  unfold corresponding_author_of amendedCorresponding
  cases hfind : authors.reverse.find? isMarkedCorresponding with
  | none =>
    simp [pyTruthyOptStr]
    cases authors.getLast? <;> rfl
  | some a =>
    have hne : authors ≠ [] := by
      intro h
      subst h
      simp at hfind
    by_cases hn : authorName a = ""
    · simp [pyTruthyOptStr, hn]
      cases hl : authors.getLast? with
      | none => exact absurd (List.getLast?_eq_none_iff.mp hl) hne
      | some la => rfl
    · simp [pyTruthyOptStr, hn]

/-- Success of the counted class repetition is the existence of a consumed
length within the bounds whose characters all lie in the class. -/
theorem matchClsRep_eq_true_iff (p : Char → Bool) (lo hi : Nat)
    (l : List Char) (k : List Char → Bool) :
    matchClsRep p lo hi l k = true ↔
      ∃ n, lo ≤ n ∧ n ≤ hi ∧ n ≤ (l.takeWhile p).length ∧
        k (l.drop n) = true := by
  unfold matchClsRep
  rw [List.any_eq_true]
  constructor
  · rintro ⟨n, hn, h⟩
    simp only [Bool.and_eq_true, decide_eq_true_eq] at h
    exact ⟨n, h.1.1, Nat.lt_succ_iff.mp (List.mem_range.mp hn), h.1.2, h.2⟩
  · rintro ⟨n, h1, h2, h3, h4⟩
    exact ⟨n, List.mem_range.mpr (Nat.lt_succ_of_le h2), by simp [h1, h3, h4]⟩

/-- Success of the one-or-more class match is the existence of a positive
consumed length whose characters all lie in the class. -/
theorem matchClsPlus_eq_true_iff (p : Char → Bool) (l : List Char)
    (k : List Char → Bool) :
    matchClsPlus p l k = true ↔
      ∃ n, 1 ≤ n ∧ n ≤ (l.takeWhile p).length ∧ k (l.drop n) = true := by
  unfold matchClsPlus
  rw [List.any_eq_true]
  constructor
  · rintro ⟨n, hn, h⟩
    simp only [Bool.and_eq_true, decide_eq_true_eq] at h
    exact ⟨n, h.1.1, h.1.2, h.2⟩
  · rintro ⟨n, h1, h2, h3⟩
    refine ⟨n, List.mem_range.mpr ?_, by simp [h1, h2, h3]⟩
    exact Nat.lt_succ_of_le (le_trans h2 ((List.takeWhile_sublist p).length_le))

/-- Success of a literal-character match is a cons decomposition. -/
theorem matchChar_eq_true_iff (c : Char) (l : List Char)
    (k : List Char → Bool) :
    matchChar c l k = true ↔ ∃ rest, l = c :: rest ∧ k rest = true := by
  cases l with
  | nil => simp [matchChar]
  | cons x rest =>
    rw [show matchChar c (x :: rest) k = (x == c && k rest) from rfl,
      Bool.and_eq_true, beq_iff_eq]
    constructor
    · rintro ⟨rfl, hk⟩
      exact ⟨rest, rfl, hk⟩
    · rintro ⟨rest', heq, hk⟩
      injection heq with h1 h2
      subst h1; subst h2
      exact ⟨rfl, hk⟩

/-- takeWhile runs through a prefix that wholly satisfies the test. -/
theorem takeWhile_append_of_all (p : Char → Bool) (ds r : List Char)
    (h : ds.all p = true) :
    (ds ++ r).takeWhile p = ds ++ r.takeWhile p := by
  induction ds with
  | nil => simp
  | cons d ds ih =>
    simp only [List.all_cons, Bool.and_eq_true] at h
    simp [List.takeWhile_cons, h.1, ih h.2]

/-- Characters inside the takeWhile window all satisfy the test. -/
theorem all_take_of_le_takeWhile (p : Char → Bool) (l : List Char) (n : Nat)
    (h : n ≤ (l.takeWhile p).length) : (l.take n).all p = true := by
  have hpre : l.take n = (l.takeWhile p).take n := by
    conv_lhs => rw [← List.takeWhile_append_dropWhile (p := p) (l := l)]
    exact List.take_append_of_le_length h
  rw [hpre, List.all_eq_true]
  intro a ha
  exact List.mem_takeWhile_imp (List.take_subset _ _ ha)

/-- Decomposition of the DOI pattern chain: it succeeds on input l with
continuation k exactly when some prefix of l is an exact match of the
pattern and k accepts the corresponding remainder. -/
theorem doiChain_eq_true_iff (l : List Char) (k : List Char → Bool) :
    doiChain l k = true ↔
      ∃ core rest, l = core ++ rest ∧ ExactDOI core ∧ k rest = true := by
  unfold doiChain
  rw [matchChar_eq_true_iff]
  constructor
  · rintro ⟨l1, rfl, h⟩
    rw [matchChar_eq_true_iff] at h
    obtain ⟨l2, rfl, h⟩ := h
    rw [matchChar_eq_true_iff] at h
    obtain ⟨l3, rfl, h⟩ := h
    rw [matchClsRep_eq_true_iff] at h
    obtain ⟨n, h4, h9, hrun, h⟩ := h
    rw [matchChar_eq_true_iff] at h
    obtain ⟨l5, hdrop, h⟩ := h
    rw [matchClsPlus_eq_true_iff] at h
    obtain ⟨m, hm1, hmrun, hk⟩ := h
    have hn_le : n ≤ l3.length :=
      le_trans hrun ((List.takeWhile_sublist _).length_le)
    have hm_le : m ≤ l5.length :=
      le_trans hmrun ((List.takeWhile_sublist _).length_le)
    have hds_len : (l3.take n).length = n := by
      rw [List.length_take]; exact min_eq_left hn_le
    have hsuf_len : (l5.take m).length = m := by
      rw [List.length_take]; exact min_eq_left hm_le
    have hl3 : l3 = l3.take n ++ '/' :: l5 := by
      conv_lhs => rw [← List.take_append_drop n l3]
      rw [hdrop]
    refine ⟨'1' :: '0' :: '.' :: (l3.take n ++ '/' :: l5.take m),
      l5.drop m, ?_, ?_, hk⟩
    · simp only [List.cons_append, List.append_assoc, List.cons_append,
        List.take_append_drop]
      rw [← hl3]
    · refine ⟨l3.take n, l5.take m, rfl, ?_, ?_, ?_, ?_, ?_⟩
      · rw [hds_len]; exact h4
      · rw [hds_len]; exact h9
      · exact all_take_of_le_takeWhile _ _ _ hrun
      · intro hnil
        rw [hnil] at hsuf_len
        simp at hsuf_len
        omega
      · exact all_take_of_le_takeWhile _ _ _ hmrun
  · rintro ⟨core, rest, rfl, ⟨ds, suf, rfl, h4, h9, hall, hne, hsall⟩, hk⟩
    simp only [List.cons_append]
    refine ⟨'0' :: '.' :: ((ds ++ '/' :: suf) ++ rest), rfl, ?_⟩
    rw [matchChar_eq_true_iff]
    refine ⟨'.' :: ((ds ++ '/' :: suf) ++ rest), rfl, ?_⟩
    rw [matchChar_eq_true_iff]
    refine ⟨(ds ++ '/' :: suf) ++ rest, rfl, ?_⟩
    rw [matchClsRep_eq_true_iff]
    have hshape : (ds ++ '/' :: suf) ++ rest = ds ++ '/' :: (suf ++ rest) := by
      simp [List.append_assoc]
    refine ⟨ds.length, h4, h9, ?_, ?_⟩
    · rw [hshape, takeWhile_append_of_all _ _ _ hall, List.length_append]
      exact Nat.le_add_right _ _
    · rw [hshape, List.drop_left]
      rw [matchChar_eq_true_iff]
      refine ⟨suf ++ rest, rfl, ?_⟩
      rw [matchClsPlus_eq_true_iff]
      refine ⟨suf.length, ?_, ?_, ?_⟩
      · have := List.length_pos.mpr hne
        omega
      · rw [takeWhile_append_of_all _ _ _ hsall, List.length_append]
        exact Nat.le_add_right _ _
      · rw [List.drop_left]
        exact hk

/-- A string whose character list is nonempty is not the empty string under
the boolean test of the source. -/
theorem not_beq_empty_of_data_ne_nil (s : String) (h : s.data ≠ []) :
    (!(s == "")) = true := by
  rw [Bool.not_eq_true', beq_eq_false_iff_ne]
  intro hs
  subst hs
  exact h rfl

/-- The dollar anchor accepts exactly the empty remainder or the single
trailing newline. -/
theorem pyDollarEnd_eq_true_iff (l : List Char) :
    pyDollarEnd l = true ↔ l = [] ∨ l = ['\n'] := by
  unfold pyDollarEnd
  rw [Bool.or_eq_true, List.isEmpty_iff, beq_iff_eq]

/-- Full characterisation of validate_doi: it accepts a string exactly when
the whole string is an exact match of the DOI pattern, or the string ends in
one newline and everything before it is an exact match. -/
theorem validate_doi_iff (s : String) :
    validate_doi s = true ↔
      ExactDOI s.data ∨
        (s.data.getLast? = some '\n' ∧ ExactDOI s.data.dropLast) := by
  unfold validate_doi
  rw [Bool.and_eq_true, doiChain_eq_true_iff]
  constructor
  · rintro ⟨-, core, rest, hsplit, hcore, hend⟩
    rw [pyDollarEnd_eq_true_iff] at hend
    cases hend with
    | inl hnil =>
      subst hnil
      rw [List.append_nil] at hsplit
      exact Or.inl (hsplit ▸ hcore)
    | inr hnl =>
      subst hnl
      refine Or.inr ⟨?_, ?_⟩
      · rw [hsplit]; exact List.getLast?_concat core
      · rw [hsplit, List.dropLast_concat]; exact hcore
  · rintro (hexact | ⟨hlast, hexact⟩)
    · have hne : s.data ≠ [] := by
        obtain ⟨ds, suf, heq, -⟩ := hexact
        rw [heq]; exact List.cons_ne_nil _ _
      refine ⟨not_beq_empty_of_data_ne_nil s hne, s.data, [], ?_, hexact, rfl⟩
      rw [List.append_nil]
    · have hsplit : s.data = s.data.dropLast ++ ['\n'] :=
        (List.dropLast_append_getLast? '\n' hlast).symm
      have hne : s.data ≠ [] := by
        intro h
        rw [h] at hlast
        exact Option.noConfusion hlast
      exact ⟨not_beq_empty_of_data_ne_nil s hne, s.data.dropLast, ['\n'],
        hsplit, hexact, rfl⟩

/-- C2 counterexample: the code's validator accepts a conforming identifier
followed by one trailing newline, which the claimed both-ends-anchored exact
match rejects: an accepted string may have a character after the full
match. -/
theorem validate_accepts_trailing_newline :
    validate_doi "10.1038/x\n" = true ∧
    exactValidate "10.1038/x\n" = false ∧
    validate_doi "10.1038/x\n" ≠ exactValidate "10.1038/x\n" := by
  refine ⟨by decide, by decide, ?_⟩
  rw [show validate_doi "10.1038/x\n" = true from by decide,
    show exactValidate "10.1038/x\n" = false from by decide]
  exact fun h => Bool.noConfusion h

/-- C2 as amended: validate_doi accepts a string exactly when it matches the
identifier pattern anchored at the start and at the end, where the end
anchor also accepts the position just before a single trailing newline
(CPython dollar semantics); the conforming example validates and the two
malformed examples are rejected. -/
theorem validate_doi_matches_anchored_doi_format :
    (∀ s : String, validate_doi s = true ↔
      ExactDOI s.data ∨
        (s.data.getLast? = some '\n' ∧ ExactDOI s.data.dropLast)) ∧
    validate_doi "10.1038/s41586-020-2169-0" = true ∧
    validate_doi "10.1038" = false ∧
    validate_doi "" = false :=
  ⟨validate_doi_iff, by decide, by decide, by decide⟩
